import Mathlib

/-
Verification of the register-access core of the basebandboard software
(src/software/axi3test/axi3_h2f_lw.c and src/software/axi3test/gpigpo.c).

Both programs share the same acquisition sequence: open("/dev/mem",
O_RDWR|O_SYNC); on failure print an error and return; otherwise mmap a
physical window (PROT_READ|PROT_WRITE, MAP_SHARED); on mmap failure close
the file descriptor and return; then access 32-bit registers at fixed byte
offsets inside the window, and finally munmap and close.  The shallow
embedding below models the operating-system resources the programs can
observe (open file descriptors, live mappings, mmap invocations) and a
byte-addressed shared physical memory, and the spec's Physical Memory
Window / Register View operations over them.
-/

namespace Basebandboard

/-- Errors of the map operation: the device cannot be opened (the first
error path of both programs, printing an error after `open` returns -1),
or the mapping step fails (the second error path, after `mmap` returns
MAP_FAILED). -/
inductive MapError where
  | DeviceOpenError
  | MappingError
deriving DecidableEq, Repr

/-- Error for a register access whose offset lies outside the mapped
window. -/
inductive AccessError where
  | OutOfBoundsAccess
deriving DecidableEq, Repr

/-- A mapped physical memory window: its physical base address and its
length in bytes.  In the embedding the virtual base of the mapping is
identified with the physical base, since the backing store is the shared
physical memory itself. -/
structure Window where
  base : Nat
  length : Nat
deriving DecidableEq, Repr

/-- Operating-system resource state observable to the programs: the number
of open device handles, the number of live virtual mappings, a counter of
mmap invocations, and flags saying whether the open and mmap system calls
fail (modelling insufficient privilege and mapping-resource exhaustion). -/
structure OsState where
  openFDs : Nat
  mappings : Nat
  mmapCalls : Nat
  openFails : Bool
  mmapFails : Bool
deriving DecidableEq, Repr

/-- Acquisition sequence shared by both programs
(src/software/axi3test/axi3_h2f_lw.c lines 16-29 and
src/software/axi3test/gpigpo.c lines 21-34): open "/dev/mem"; if that
fails return the device-open error with nothing acquired; otherwise call
mmap on the requested window; if mmap fails (flagged failure, or a zero
length, which mmap rejects) close the just-opened descriptor and return
the mapping error; otherwise the window is live. -/
def map (s : OsState) (base length : Nat) : Except MapError Window × OsState :=
  if s.openFails then
    (Except.error MapError.DeviceOpenError, s)
  else
    let s1 : OsState := { s with openFDs := s.openFDs + 1 }
    let s2 : OsState := { s1 with mmapCalls := s1.mmapCalls + 1 }
    if s.mmapFails ∨ length = 0 then
      (Except.error MapError.MappingError, { s2 with openFDs := s2.openFDs - 1 })
    else
      (Except.ok { base := base, length := length }, { s2 with mappings := s2.mappings + 1 })

/-- Release sequence at the end of both programs (munmap followed by
close): the mapping and the device handle are both released. -/
def unmap (s : OsState) (_w : Window) : OsState :=
  { s with mappings := s.mappings - 1, openFDs := s.openFDs - 1 }

/-- Byte-addressed shared physical memory: each address holds one byte. -/
def Mem := Nat → Nat

/-- Store of one 32-bit value as four little-endian bytes starting at
`addr`, as performed by `*(uint32_t*)reg = value` on the little-endian ARM
target of these programs. -/
def writeBytes (m : Mem) (addr v : Nat) : Mem :=
  fun a =>
    if a = addr then v % 256
    else if a = addr + 1 then v / 256 % 256
    else if a = addr + 2 then v / 65536 % 256
    else if a = addr + 3 then v / 16777216 % 256
    else m a

/-- Load of one 32-bit value from the four little-endian bytes starting at
`addr`, as performed by `*(uint32_t*)reg`. -/
def readBytes (m : Mem) (addr : Nat) : Nat :=
  m addr % 256 + m (addr + 1) % 256 * 256 + m (addr + 2) % 256 * 65536
    + m (addr + 3) % 256 * 16777216

/-- Modelled from the spec: `register_pointer(window, offset)` of the
Physical Memory Window component, which the two demonstration programs do
not implement (they use raw pointer arithmetic with fixed in-bounds
offsets); the spec's bounds check rejects any `offset` with `offset < 0`
or `offset + 4 > window.length` with `OutOfBoundsAccess`, and otherwise
returns the address `window base + offset`. -/
def register_pointer (w : Window) (offset : Int) : Except AccessError Nat :=
  if offset < 0 ∨ offset + 4 > (w.length : Int) then
    Except.error AccessError.OutOfBoundsAccess
  else
    Except.ok (w.base + offset.toNat)

/-- Modelled from the spec: `read(window, offset)` of the Register View,
absent as a named operation from the programs; the bounds check follows
the spec and the in-bounds access is the 4-byte load the programs perform
with `*(uint32_t*)`. -/
def read (w : Window) (m : Mem) (offset : Int) : Except AccessError Nat :=
  if offset < 0 ∨ offset + 4 > (w.length : Int) then
    Except.error AccessError.OutOfBoundsAccess
  else
    Except.ok (readBytes m (w.base + offset.toNat))

/-- Modelled from the spec: `write(window, offset, value)` of the Register
View, absent as a named operation from the programs; the bounds check
follows the spec and the in-bounds access is the 4-byte store the programs
perform with `*(uint32_t*)reg = value` (the value is a uint32_t, hence
reduced modulo 2^32). -/
def write (w : Window) (m : Mem) (offset : Int) (v : Nat) : Except AccessError Mem :=
  if offset < 0 ∨ offset + 4 > (w.length : Int) then
    Except.error AccessError.OutOfBoundsAccess
  else
    Except.ok (writeBytes m (w.base + offset.toNat) (v % 4294967296))

/-- Physical base of the HPS-to-FPGA lightweight bridge window
(axi3_h2f_lw.c line 8). -/
def H2F_LW_BASE : Nat := 0xFF200000

/-- Length of the bridge window (axi3_h2f_lw.c line 9). -/
def H2F_LW_SIZE : Nat := 0x00200000

/-- Physical base of the FPGA configuration-manager window
(gpigpo.c line 8). -/
def FPGA_MANAGER_BASE : Nat := 0xFF706000

/-- Length of the configuration-manager window (gpigpo.c line 9). -/
def FPGA_MANAGER_SIZE : Nat := 0x1C

/-- Offset of the status register (gpigpo.c line 11). -/
def FPGA_MANAGER_STAT : Nat := 0x00

/-- Offset of the control register (gpigpo.c line 12). -/
def FPGA_MANAGER_CTRL : Nat := 0x04

/-- Offset of the GPO register (gpigpo.c line 13). -/
def FPGA_MANAGER_GPO : Nat := 0x10

/-- Offset of the GPI register (gpigpo.c line 14). -/
def FPGA_MANAGER_GPI : Nat := 0x14

/-- Register offsets used by axi3_h2f_lw.c (lines 32-35): reg0..reg3 at
bytes 0, 4, 8, 12 of the bridge window. -/
def axi3RegOffsets : List Nat := [0, 4, 8, 12]

/-- Register offsets used by gpigpo.c (lines 37-40): status, control, GPO
and GPI within the configuration-manager window. -/
def fpgaManagerOffsets : List Nat :=
  [FPGA_MANAGER_STAT, FPGA_MANAGER_CTRL, FPGA_MANAGER_GPO, FPGA_MANAGER_GPI]

/-- One iteration of the counter update in the polling loop of both
programs: `if(leds++ == 0xFF) leds = 0;` on a uint32_t, returning the
value `leds` holds when it is stored to the output register in the same
iteration. -/
def ledsStep (leds : Nat) : Nat :=
  let incremented := (leds + 1) % 4294967296
  if leds = 0xFF then 0 else incremented

/-- Value of `leds` at the point of the store in iteration `n` of the
polling loop (`ledsSeq 0 = 0` is the initialisation `uint32_t leds = 0`
before the loop; the value written in iteration `n ≥ 1` is `ledsSeq n`). -/
def ledsSeq : Nat → Nat
  | 0 => 0
  | n + 1 => ledsStep (ledsSeq n)

/-- Helper: a byte address strictly outside the four bytes written by
`writeBytes` is untouched. -/
theorem writeBytes_untouched (m : Mem) (a v x : Nat)
    (h : x < a ∨ a + 4 ≤ x) : writeBytes m a v x = m x := by
  have h0 : x ≠ a := by omega
  have h1 : x ≠ a + 1 := by omega
  have h2 : x ≠ a + 2 := by omega
  have h3 : x ≠ a + 3 := by omega
  simp [writeBytes, h0, h1, h2, h3]

/-- Helper: reading back the four bytes just written reassembles the
stored value reduced modulo 2^32. -/
theorem readBytes_writeBytes (m : Mem) (a v : Nat) :
    readBytes (writeBytes m a v) a = v % 4294967296 := by
  have e1 : a + 1 ≠ a := by omega
  have e2 : a + 2 ≠ a := by omega
  have e3 : a + 3 ≠ a := by omega
  have e12 : a + 2 ≠ a + 1 := by omega
  have e13 : a + 3 ≠ a + 1 := by omega
  have e23 : a + 3 ≠ a + 2 := by omega
  simp only [readBytes, writeBytes, if_pos rfl, if_neg e1, if_neg e2, if_neg e3,
    if_neg e12, if_neg e13, if_neg e23, if_true]
  omega

/-- C1: for every offset with `offset < 0` or `offset + 4 > length`, each
of `register_pointer`, `read` and `write` rejects the access with
`OutOfBoundsAccess` (for all window lengths, including 0 and 4), and no
out-of-range offset is silently truncated or wrapped into an access. -/
theorem c1_out_of_bounds_rejected (w : Window) (offset : Int) (m : Mem) (v : Nat)
    (h : offset < 0 ∨ offset + 4 > (w.length : Int)) :
    register_pointer w offset = Except.error AccessError.OutOfBoundsAccess ∧
    read w m offset = Except.error AccessError.OutOfBoundsAccess ∧
    write w m offset v = Except.error AccessError.OutOfBoundsAccess := by
  refine ⟨?_, ?_, ?_⟩ <;>
    simp only [register_pointer, read, write, if_pos h]

/-- Witness for C1 at a window of length 0 and offset 0. -/
theorem c1_out_of_bounds_rejected_witness :
    register_pointer { base := 0xFF200000, length := 0 } 0
        = Except.error AccessError.OutOfBoundsAccess ∧
    read { base := 0xFF200000, length := 0 } (fun _ => 0) 0
        = Except.error AccessError.OutOfBoundsAccess ∧
    write { base := 0xFF200000, length := 0 } (fun _ => 0) 0 7
        = Except.error AccessError.OutOfBoundsAccess :=
  c1_out_of_bounds_rejected { base := 0xFF200000, length := 0 } 0 (fun _ => 0) 7
    (by decide)

/-- C2: when the device opens but the mapping step fails, `map` returns
`MappingError` and the descriptor opened during the call has been closed:
the open-handle count and the mapping count end exactly as they began, so
no file descriptor leaks on this failure path. -/
theorem c2_no_fd_leak_on_mapping_failure (s : OsState) (base length : Nat)
    (hopen : s.openFails = false) (hmmap : s.mmapFails = true ∨ length = 0) :
    (map s base length).1 = Except.error MapError.MappingError ∧
    ((map s base length).2).openFDs = s.openFDs ∧
    ((map s base length).2).mappings = s.mappings := by
  have hcond : (s.mmapFails = true) ∨ length = 0 := hmmap
  refine ⟨?_, ?_, ?_⟩ <;> simp [map, hopen, hcond]

/-- Witness for C2: a device that opens but whose mmap fails, starting
from one already-open descriptor. -/
theorem c2_no_fd_leak_on_mapping_failure_witness :
    (map { openFDs := 1, mappings := 0, mmapCalls := 0,
           openFails := false, mmapFails := true } 0xFF200000 0x00200000).1
        = Except.error MapError.MappingError ∧
    ((map { openFDs := 1, mappings := 0, mmapCalls := 0,
            openFails := false, mmapFails := true } 0xFF200000 0x00200000).2).openFDs = 1 ∧
    ((map { openFDs := 1, mappings := 0, mmapCalls := 0,
            openFails := false, mmapFails := true } 0xFF200000 0x00200000).2).mappings = 0 :=
  c2_no_fd_leak_on_mapping_failure
    { openFDs := 1, mappings := 0, mmapCalls := 0,
      openFails := false, mmapFails := true } 0xFF200000 0x00200000
    rfl (Or.inl rfl)

/-- C5: when the physical-memory device cannot be opened, `map` returns
exactly `DeviceOpenError` and leaves the state untouched — in particular
the mmap-invocation counter is unchanged, so no mapping step was
attempted. -/
theorem c5_device_open_error (s : OsState) (base length : Nat)
    (hopen : s.openFails = true) :
    (map s base length).1 = Except.error MapError.DeviceOpenError ∧
    (map s base length).2 = s := by
  refine ⟨?_, ?_⟩ <;> simp [map, hopen]

/-- Witness for C5: a device whose open fails. -/
theorem c5_device_open_error_witness :
    (map { openFDs := 0, mappings := 0, mmapCalls := 0,
           openFails := true, mmapFails := false } 0xFF706000 0x1C).1
        = Except.error MapError.DeviceOpenError ∧
    (map { openFDs := 0, mappings := 0, mmapCalls := 0,
           openFails := true, mmapFails := false } 0xFF706000 0x1C).2
        = { openFDs := 0, mappings := 0, mmapCalls := 0,
            openFails := true, mmapFails := false } :=
  c5_device_open_error
    { openFDs := 0, mappings := 0, mmapCalls := 0,
      openFails := true, mmapFails := false } 0xFF706000 0x1C rfl

/-- C6: a successful `map` followed immediately by `unmap` leaves no open
device handle and no residual virtual mapping beyond those present before
the call: `unmap` unmaps the virtual range and closes the device handle,
restoring both resource counts. -/
theorem c6_map_unmap_roundtrip (s : OsState) (base length : Nat) (w : Window)
    (h : (map s base length).1 = Except.ok w) :
    (unmap (map s base length).2 w).openFDs = s.openFDs ∧
    (unmap (map s base length).2 w).mappings = s.mappings := by
  by_cases ho : s.openFails
  · simp [map, ho] at h
  · by_cases hm : s.mmapFails ∨ length = 0
    · simp [map, ho, hm] at h
    · refine ⟨?_, ?_⟩ <;> simp [map, unmap, ho, hm]

/-- Witness for C6: a fresh state mapping the bridge window, then
unmapping it. -/
theorem c6_map_unmap_roundtrip_witness :
    (unmap (map { openFDs := 0, mappings := 0, mmapCalls := 0,
                  openFails := false, mmapFails := false } 0xFF200000 0x00200000).2
        { base := 0xFF200000, length := 0x00200000 }).openFDs = 0 ∧
    (unmap (map { openFDs := 0, mappings := 0, mmapCalls := 0,
                  openFails := false, mmapFails := false } 0xFF200000 0x00200000).2
        { base := 0xFF200000, length := 0x00200000 }).mappings = 0 :=
  c6_map_unmap_roundtrip
    { openFDs := 0, mappings := 0, mmapCalls := 0,
      openFails := false, mmapFails := false } 0xFF200000 0x00200000
    { base := 0xFF200000, length := 0x00200000 } rfl

/-- C7: after any `map` call the window is either fully mapped — the call
returned a window with positive length over the requested range, and both
the device handle and the virtual mapping were acquired together — or
fully unmapped: the call returned an error and the handle and mapping
counts stand exactly as before, so no caller ever observes a handle
without a mapping or a mapping without a handle; `unmap` likewise releases
both at once. -/
theorem c7_no_partly_mapped_state (s : OsState) (base length : Nat) :
    ((map s base length).1 = Except.ok { base := base, length := length } ∧
      length > 0 ∧
      ((map s base length).2).openFDs = s.openFDs + 1 ∧
      ((map s base length).2).mappings = s.mappings + 1 ∧
      (unmap (map s base length).2 { base := base, length := length }).openFDs
          = s.openFDs ∧
      (unmap (map s base length).2 { base := base, length := length }).mappings
          = s.mappings) ∨
    ((∃ e, (map s base length).1 = Except.error e) ∧
      ((map s base length).2).openFDs = s.openFDs ∧
      ((map s base length).2).mappings = s.mappings) := by
  by_cases ho : s.openFails
  · right
    refine ⟨⟨MapError.DeviceOpenError, ?_⟩, ?_, ?_⟩ <;> simp [map, ho]
  · by_cases hm : s.mmapFails ∨ length = 0
    · right
      refine ⟨⟨MapError.MappingError, ?_⟩, ?_, ?_⟩ <;> simp [map, ho, hm]
    · left
      have hl : length > 0 := by
        rcases Nat.eq_zero_or_pos length with h0 | h0
        · exact absurd (Or.inr h0) hm
        · exact h0
      refine ⟨?_, hl, ?_, ?_, ?_, ?_⟩ <;> simp [map, unmap, ho, hm]

/-- C4: a `write` of any 32-bit value `V` immediately followed by a `read`
at the same in-bounds offset, against the byte-level backing store that
simply echoes stores, returns exactly `V`: no truncation, sign-extension
or byte-order corruption across the 4-byte access. -/
theorem c4_write_then_read (w : Window) (m : Mem) (offset : Int) (v : Nat)
    (hv : v < 4294967296) (h0 : 0 ≤ offset) (h4 : offset + 4 ≤ (w.length : Int)) :
    Except.bind (write w m offset v) (fun m2 => read w m2 offset)
      = Except.ok v := by
  have hcond : ¬(offset < 0 ∨ offset + 4 > (w.length : Int)) := by omega
  simp only [write, read, if_neg hcond, Except.bind]
  rw [readBytes_writeBytes]
  congr 1
  omega

/-- Witness for C4 at the bridge window, offset 0, value 0xFFFFFFFF. -/
theorem c4_write_then_read_witness :
    Except.bind
        (write { base := 0xFF200000, length := 0x00200000 } (fun _ => 0) 0 0xFFFFFFFF)
        (fun m2 => read { base := 0xFF200000, length := 0x00200000 } m2 0)
      = Except.ok 0xFFFFFFFF :=
  c4_write_then_read { base := 0xFF200000, length := 0x00200000 } (fun _ => 0) 0
    0xFFFFFFFF (by decide) (by decide) (by decide)

/-- C9: a write through one mapped window is never observable through a
read on a second window over a non-overlapping physical range: every read
through the second window returns the same value after the write as
before it. -/
theorem c9_disjoint_windows_no_interference
    (w1 w2 : Window) (m m1 : Mem) (off1 off2 : Int) (v : Nat)
    (hdisj : w1.base + w1.length ≤ w2.base ∨ w2.base + w2.length ≤ w1.base)
    (hw : write w1 m off1 v = Except.ok m1) :
    read w2 m1 off2 = read w2 m off2 := by
  by_cases h1 : off1 < 0 ∨ off1 + 4 > (w1.length : Int)
  · simp [write, if_pos h1] at hw
  · have hm1 : m1 = writeBytes m (w1.base + off1.toNat) (v % 4294967296) := by
      simp only [write, if_neg h1] at hw
      exact (Except.ok.injEq _ _ ▸ hw).symm
    by_cases h2 : off2 < 0 ∨ off2 + 4 > (w2.length : Int)
    · simp [read, if_pos h2]
    · simp only [read, if_neg h2]
      subst hm1
      unfold readBytes
      rw [writeBytes_untouched, writeBytes_untouched, writeBytes_untouched,
        writeBytes_untouched] <;> omega

/-- Witness for C9: the bridge window at 0xFF200000 of length 0x00200000
and the configuration-manager window at 0xFF706000 of length 0x1C are
disjoint, and a write of 0xFF to bridge offset 0 does not change a read at
configuration-manager offset 0x10. -/
theorem c9_disjoint_windows_no_interference_witness :
    read { base := 0xFF706000, length := 0x1C }
        (writeBytes (fun _ => 0) 0xFF200000 (0xFF % 4294967296)) 0x10
      = read { base := 0xFF706000, length := 0x1C } (fun _ => 0) 0x10 :=
  c9_disjoint_windows_no_interference
    { base := 0xFF200000, length := 0x00200000 }
    { base := 0xFF706000, length := 0x1C }
    (fun _ => 0) (writeBytes (fun _ => 0) 0xFF200000 (0xFF % 4294967296))
    0 0x10 0xFF (by decide) rfl

/-- C8: every register offset held by the two programs' register views is
4-byte aligned and satisfies `offset + 4 ≤ window length`: offsets 0, 4,
8, 12 within the 0x00200000-byte bridge window, and offsets 0x00, 0x04,
0x10, 0x14 within the 0x1C-byte configuration-manager window. -/
theorem c8_register_offsets_aligned_in_bounds :
    (∀ off ∈ axi3RegOffsets, off + 4 ≤ H2F_LW_SIZE ∧ off % 4 = 0) ∧
    (∀ off ∈ fpgaManagerOffsets, off + 4 ≤ FPGA_MANAGER_SIZE ∧ off % 4 = 0) := by
  refine ⟨?_, ?_⟩ <;> decide

/-- Witness for C8 at the GPI offset 0x14 of the configuration-manager
window. -/
theorem c8_register_offsets_aligned_in_bounds_witness :
    0x14 + 4 ≤ FPGA_MANAGER_SIZE ∧ 0x14 % 4 = 0 :=
  c8_register_offsets_aligned_in_bounds.2 0x14 (by decide)

/-- C10: the value stored to the output register in each iteration of the
polling loop never exceeds 0xFF: the first iteration writes 1, a value
below 0xFF is followed by its successor, and the iteration after a write
of 0xFF writes 0. -/
theorem c10_led_counter_bounded :
    (∀ n, ledsSeq n ≤ 0xFF) ∧
    ledsSeq 1 = 1 ∧
    (∀ n, ledsSeq n < 0xFF → ledsSeq (n + 1) = ledsSeq n + 1) ∧
    (∀ n, ledsSeq n = 0xFF → ledsSeq (n + 1) = 0) := by
  have hbound : ∀ n, ledsSeq n ≤ 0xFF := by
    intro n
    induction n with
    | zero => decide
    | succ n ih =>
      show ledsStep (ledsSeq n) ≤ 0xFF
      unfold ledsStep
      by_cases h : ledsSeq n = 0xFF
      · simp [h]
      · simp only [if_neg h]
        omega
  refine ⟨hbound, rfl, ?_, ?_⟩
  · intro n h
    show ledsStep (ledsSeq n) = ledsSeq n + 1
    unfold ledsStep
    have hne : ledsSeq n ≠ 0xFF := by omega
    simp only [if_neg hne]
    omega
  · intro n h
    show ledsStep (ledsSeq n) = 0
    unfold ledsStep
    simp [h]

set_option maxRecDepth 4000 in
/-- Witness for C10: the bound at iteration 3, the successor step after
iteration 1, and the wrap at iteration 256 (iteration 255 writes 0xFF). -/
theorem c10_led_counter_bounded_witness :
    ledsSeq 3 ≤ 0xFF ∧ ledsSeq 2 = ledsSeq 1 + 1 ∧ ledsSeq 256 = 0 :=
  ⟨c10_led_counter_bounded.1 3,
   c10_led_counter_bounded.2.2.1 1 (by decide),
   c10_led_counter_bounded.2.2.2 255 (by decide)⟩

end Basebandboard
